import Mathlib

set_option maxRecDepth 8192

/-!
Verification of the screenplay-backend service (`src/main.py`) against its
natural-language specification.

The Python source is shallowly embedded below.  Conventions:

* Python strings are modelled by `String`, operating on `List Char` via
  structural-recursive helpers mirroring the exact CPython semantics of the
  methods used by the source (`str.replace` with a one-character pattern,
  `str.split()`, `str.split(sep, 1)`, `str.rsplit(sep, 1)`, `str.strip()`,
  `str.upper()`, `str.startswith`).  `Char.toUpper` is ASCII-only, which
  matches Python's `str.upper` on every input appearing in the claims.
* Python floats are modelled by `Rat`: the source only ever assigns decimal
  literals (0.7 … 1.5) to voice parameters and never computes with them, so
  no floating-point rounding behaviour is observable.
* Fallible code (a Python statement that can raise) is modelled with
  `Option`: `none` means the exception propagates to the enclosing
  `try/except`.
* The outbound HTTP call of `call_claude` is modelled by an oracle value
  `HttpResp` supplied as an argument; a paired `Bool` records whether the
  network was contacted at all.
-/

namespace Screenplay

/-- Python truthiness of an optional string: `None` and `""` are falsy. -/
def pyTruthyOptStr : Option String → Bool
  | none => false
  | some s => s != ""

/-- CPython `str.replace(old, new)` restricted to a one-character `old`
(the only form `main.py` uses): every occurrence of the character is
replaced independently. -/
def pyReplaceChar (s : String) (old : Char) (rep : String) : String :=
  String.mk (s.toList.flatMap fun c => if c = old then rep.toList else [c])

/-- Python `str.strip()` on a character list: drop whitespace from both ends. -/
def pyStripList (l : List Char) : List Char :=
  ((l.dropWhile Char.isWhitespace).reverse.dropWhile Char.isWhitespace).reverse

/-- Python `str.strip()`. -/
def pyStrip (s : String) : String :=
  String.mk (pyStripList s.toList)

/-- Python `str.upper()` (ASCII case mapping, as in all claim inputs). -/
def pyUpper (s : String) : String :=
  String.mk (s.toList.map Char.toUpper)

/-- Python `str.startswith(p)`. -/
def pyStartsWith (s p : String) : Bool :=
  p.toList.isPrefixOf s.toList

/-- Helper for `str.split()`: split a character list at every whitespace
character, keeping empty runs (they are filtered out afterwards, matching
Python's no-argument `split`). -/
def splitOnWsAux : List Char → List (List Char)
  | [] => [[]]
  | c :: cs =>
    let r := splitOnWsAux cs
    if c.isWhitespace then
      [] :: r
    else
      match r with
      | [] => [[c]]
      | w :: ws => (c :: w) :: ws

/-- Python `str.split()` (no separator): whitespace-delimited tokens, empty
tokens discarded. -/
def pySplitWs (s : String) : List String :=
  ((splitOnWsAux s.toList).map String.mk).filter (fun t => t != "")

/-- Python `s.split(sep, 1)[1]` for a one-character separator: the text after
the first occurrence of `sep`, or `none` when `sep` does not occur (in which
case the Python index `[1]` raises `IndexError`). -/
def splitOnceAfter : List Char → Char → Option (List Char)
  | [], _ => none
  | c :: cs, sep => if c = sep then some cs else splitOnceAfter cs sep

/-- Position of the last occurrence of `pat` (as a sublist starting there)
in `s`, if any. -/
def lastOccPos (s pat : List Char) : Option Nat :=
  ((List.range (s.length + 1)).filter (fun i => pat.isPrefixOf (s.drop i))).getLast?

/-- Python `s.rsplit(pat, 1)[0]`: everything before the last occurrence of
`pat`, or all of `s` when `pat` does not occur. -/
def rsplitBeforeLast (s pat : List Char) : List Char :=
  match lastOccPos s pat with
  | some i => s.take i
  | none => s

end Screenplay

namespace Screenplay

/-- `class ScriptElement(BaseModel)` of `main.py`: a typed screenplay element. -/
structure ScriptElement where
  type : String
  text : String
deriving DecidableEq, Repr

/-- `class ExportFDXRequest(BaseModel)` of `main.py`. -/
structure ExportFDXRequest where
  title : String
  elements : List ScriptElement
deriving DecidableEq, Repr

/-- `escape_xml` of `main.py`: `if not text: return ""` followed by the five
chained `str.replace` calls, ampersand first. -/
def escape_xml (text : String) : String :=
  if text = "" then ""
  else
    pyReplaceChar (pyReplaceChar (pyReplaceChar (pyReplaceChar (pyReplaceChar
      text '&' "&amp;") '<' "&lt;") '>' "&gt;") '"' "&quot;") '\'' "&apos;"

/-- The `type_mapping` dict literal inside `generate_fdx`. -/
def type_mapping : List (String × String) :=
  [("SCENE_HEADING", "Scene Heading"),
   ("ACTION", "Action"),
   ("CHARACTER", "Character"),
   ("DIALOGUE", "Dialogue"),
   ("PARENTHETICAL", "Parenthetical"),
   ("TRANSITION", "Transition")]

/-- `type_mapping.get(el.type, "Action")` of `generate_fdx`. -/
def fdx_type_of (t : String) : String :=
  (type_mapping.lookup t).getD "Action"

/-- The three lines `generate_fdx` appends to `xml_parts` for one element. -/
def paragraph_block (el : ScriptElement) : List String :=
  ["  <Paragraph Type=\"" ++ fdx_type_of el.type ++ "\">",
   "    <Text>" ++ escape_xml el.text ++ "</Text>",
   "  </Paragraph>"]

/-- The fixed leading entries of `xml_parts` in `generate_fdx`. -/
def fdx_header : List String :=
  ["<?xml version=\"1.0\" encoding=\"UTF-8\"?>",
   "<FinalDraft DocumentType=\"Script\" Template=\"No\" Version=\"3\">",
   "<Content>"]

/-- The fixed trailing entries of `xml_parts` in `generate_fdx`. -/
def fdx_footer : List String :=
  ["</Content>", "</FinalDraft>"]

/-- Python `'\n'.join(parts)`. -/
def pyJoinNl : List String → String
  | [] => ""
  | [x] => x
  | x :: xs => x ++ "\n" ++ pyJoinNl xs

/-- `generate_fdx` of `main.py`: header parts, then a `for` loop appending one
paragraph block per element, then the footer, joined with newlines.
(`title` is accepted and unused, exactly as in the source.) -/
def generate_fdx (_title : String) (elements : List ScriptElement) : String :=
  let xml_parts := fdx_header
  let xml_parts := elements.foldl (fun acc el => acc ++ paragraph_block el) xml_parts
  pyJoinNl (xml_parts ++ fdx_footer)

/-- The observable parts of the `Response` built by the `/export/fdx` handler
(`export_fdx` of `main.py`): body, media type and the filename carried in the
`Content-Disposition: attachment` header.  `generate_fdx` cannot raise in the
model, so the handler's `except` branch is dead. -/
structure FdxAttachment where
  content : String
  media_type : String
  filename : String
deriving DecidableEq, Repr

/-- `export_fdx` of `main.py` (the attachment endpoint): the filename is
`request.title.replace(' ', '_')` with a `.fdx` suffix. -/
def export_fdx (request : ExportFDXRequest) : FdxAttachment :=
  { content := generate_fdx request.title request.elements
    media_type := "application/xml"
    filename := pyReplaceChar request.title ' ' "_" ++ ".fdx" }

/-- The JSON envelope returned by `/export/fdx/json` on success. -/
structure FdxJsonEnvelope where
  success : Bool
  filename : String
  content : String
  content_type : String
deriving DecidableEq, Repr

/-- `export_fdx_json` of `main.py` (the JSON endpoint): the filename is
`f"{request.title}.fdx"` — the title is used verbatim, no space replacement. -/
def export_fdx_json (request : ExportFDXRequest) : FdxJsonEnvelope :=
  { success := true
    filename := request.title ++ ".fdx"
    content := generate_fdx request.title request.elements
    content_type := "application/xml" }

end Screenplay

namespace Screenplay

/-- The `FEMALE_NAMES` set literal of `main.py` (membership-only use, so a
list models the Python set faithfully). -/
def FEMALE_NAMES : List String :=
  ["MARIE", "SOPHIE", "JULIE", "EMMA", "LÉA", "CHLOÉ", "CAMILLE", "SARAH",
   "LAURA", "CLARA", "ALICE", "ANNA", "EVA", "LISA", "MARY", "JANE",
   "OLIVIA", "AVA", "MIA", "EMILY", "ELLA", "LUCY", "GRACE"]

/-- The `MALE_NAMES` set literal of `main.py`. -/
def MALE_NAMES : List String :=
  ["JEAN", "PIERRE", "PAUL", "JACQUES", "MICHEL", "MARC", "LUC", "THOMAS",
   "NICOLAS", "ANTOINE", "LOUIS", "HUGO", "LUCAS", "JOHN", "JAMES", "DAVID",
   "MICHAEL", "WILLIAM", "RICHARD", "ROBERT", "CHARLES", "JOSEPH"]

/-- `guess_gender` of `main.py`.  `clean_name = name.upper().split()[0]`
raises `IndexError` when the uppercased name has no whitespace-delimited
token; the raised exception is modelled by `none`. -/
def guess_gender (name : String) : Option String :=
  match pySplitWs (pyUpper name) with
  | [] => none
  | clean_name :: _ =>
    if FEMALE_NAMES.contains clean_name then some "female"
    else if MALE_NAMES.contains clean_name then some "male"
    else some "neutral"

/-- `guess_gender` with the two set-membership checks made in the opposite
order (male set first).  Used only to state order-independence of the
classification. -/
def guess_gender_males_first (name : String) : Option String :=
  match pySplitWs (pyUpper name) with
  | [] => none
  | clean_name :: _ =>
    if MALE_NAMES.contains clean_name then some "male"
    else if FEMALE_NAMES.contains clean_name then some "female"
    else some "neutral"

/-- `class Character(BaseModel)` of `main.py`. -/
structure Character where
  name : String
  gender : Option String := none
  age : Option String := none
  voice_id : Option String := none
deriving DecidableEq, Repr

/-- The per-character value stored in the `characters` dict built by
`prepare_tts` (`{"gender": ..., "age": ..., "voice_id": ...}`). -/
structure CharInfo where
  gender : Option String := none
  age : Option String := none
  voice_id : Option String := none
deriving DecidableEq, Repr

/-- The `characters` dict of `prepare_tts`, keyed by `char.name.upper()`.
Insertion order is kept; `dictGet` below resolves duplicate keys the way a
Python dict does (last insertion wins). -/
def build_characters : Option (List Character) → List (String × CharInfo)
  | none => []
  | some cs => cs.map fun c => (pyUpper c.name, ⟨c.gender, c.age, c.voice_id⟩)

/-- Python `dict.get(key, {})` over the insertion list: the most recently
inserted binding for the key, if any. -/
def dictGet (d : List (String × CharInfo)) (key : String) : Option CharInfo :=
  (d.reverse.find? fun p => p.1 == key).map fun p => p.2

/-- The `voice_params` dict of `get_voice_for_element`: `rate`, `pitch` and
`voice_type` are always present; the other keys are present only when the
corresponding branch sets them.  Floats are modelled by `Rat` (only decimal
literals are ever assigned, never computed with). -/
structure VoiceParams where
  rate : Rat
  pitch : Rat
  voice_type : String
  pause_after : Option Nat := none
  volume : Option Rat := none
  skip : Option Bool := none
deriving DecidableEq, Repr

/-- The defaults assigned at the top of `get_voice_for_element`. -/
def default_voice : VoiceParams :=
  { rate := 1.0, pitch := 1.0, voice_type := "narrator" }

/-- `get_voice_for_element` of `main.py`.  A `none` result models a raised
exception (only possible through `guess_gender` in the DIALOGUE branch; the
branch condition `if last_character and characters` uses Python truthiness,
so it is skipped for an empty/missing `last_character` or an empty dict). -/
def get_voice_for_element (element : ScriptElement)
    (characters : List (String × CharInfo)) (last_character : Option String) :
    Option VoiceParams :=
  if element.type = "SCENE_HEADING" then
    some { default_voice with
           rate := 0.9, pitch := 0.8, voice_type := "narrator",
           pause_after := some 1000 }
  else if element.type = "ACTION" then
    some { default_voice with
           rate := 1.0, pitch := 1.0, voice_type := "narrator",
           pause_after := some 500 }
  else if element.type = "CHARACTER" then
    some { default_voice with skip := some true }
  else if element.type = "DIALOGUE" then
    let afterGender : Option VoiceParams :=
      if pyTruthyOptStr last_character && !characters.isEmpty then
        let lc := last_character.getD ""
        let stored : Option String :=
          match dictGet characters lc with
          | none => none
          | some info => info.gender
        -- `char_info.get("gender") or guess_gender(last_character)`
        let gender : Option String :=
          if pyTruthyOptStr stored then stored else guess_gender lc
        match gender with
        | none => none
        | some g =>
          if g = "female" then
            some { default_voice with pitch := 1.3, voice_type := "female" }
          else if g = "male" then
            some { default_voice with pitch := 0.8, voice_type := "male" }
          else
            some { default_voice with pitch := 1.0, voice_type := "neutral" }
      else some default_voice
    afterGender.map fun vp => { vp with rate := 1.1, pause_after := some 300 }
  else if element.type = "PARENTHETICAL" then
    some { default_voice with
           rate := 1.2, pitch := 1.1, volume := some 0.7,
           voice_type := "narrator", pause_after := some 200 }
  else if element.type = "TRANSITION" then
    some { default_voice with
           rate := 0.8, pitch := 0.7, voice_type := "narrator",
           pause_after := some 1500 }
  else
    some default_voice

/-- `el.text.upper().split("(")[0].strip()` of `prepare_tts`: the updated
`last_character` after a CHARACTER element. -/
def extract_character (text : String) : String :=
  pyStrip (String.mk ((pyUpper text).toList.takeWhile fun c => c != '('))

/-- One entry of the `tts_elements` list built by `prepare_tts`. -/
structure TtsElement where
  type : String
  text : String
  voice : VoiceParams
  character : Option String
deriving DecidableEq, Repr

/-- `class TTSRequestAdvanced(BaseModel)` of `main.py`. -/
structure TTSRequestAdvanced where
  title : String
  elements : List ScriptElement
  characters : Option (List Character) := none
deriving DecidableEq, Repr

/-- Result of the `/tts/prepare` handler: the success dict, or the
`{"success": False, "error": str(e)}` envelope produced by the catch-all
(the error text is not modelled; no claim depends on it). -/
inductive TtsResult where
  | ok (title : String) (elements : List TtsElement) (total_elements : Nat)
  | failure
deriving DecidableEq, Repr

/-- The elements list of a successful `/tts/prepare` response. -/
def TtsResult.elems : TtsResult → List TtsElement
  | .ok _ es _ => es
  | .failure => []

/-- One iteration of the `for el in request.elements` loop of `prepare_tts`:
compute the voice params with the current `last_character`, then update
`last_character` if the element is a CHARACTER, then append the output dict.
`none` propagates a raised exception. -/
def tts_step (characters : List (String × CharInfo))
    (st : List TtsElement × Option String) (el : ScriptElement) :
    Option (List TtsElement × Option String) :=
  match get_voice_for_element el characters st.2 with
  | none => none
  | some voice_params =>
    let last_character :=
      if el.type = "CHARACTER" then some (extract_character el.text) else st.2
    let character :=
      if el.type = "DIALOGUE" ∨ el.type = "PARENTHETICAL" then last_character
      else none
    some (st.1 ++ [⟨el.type, el.text, voice_params, character⟩], last_character)

/-- `prepare_tts` of `main.py` (the `/tts/prepare` handler). -/
def prepare_tts (request : TTSRequestAdvanced) : TtsResult :=
  let characters := build_characters request.characters
  match request.elements.foldlM (tts_step characters) ([], none) with
  | none => .failure
  | some (tts_elements, _) => .ok request.title tts_elements tts_elements.length

end Screenplay

namespace Screenplay

/-- Oracle for the single outbound `httpx` POST of `call_claude`:
`status_code` and `text` are the fields `main.py` reads from the response;
`content_text` is the value of `data["content"][0]["text"]` for a 200
response (the JSON decoding of the body itself is not modelled — no claim
depends on it). -/
structure HttpResp where
  status_code : Nat
  text : String
  content_text : String := ""
deriving DecidableEq, Repr

/-- Outcome of `call_claude`: either the text of a raised `HTTPException`
(status code and detail) or the extracted completion text. -/
inductive CallResult where
  | http_error (status_code : Nat) (detail : String)
  | success (text : String)
deriving DecidableEq, Repr

/-- `call_claude` of `main.py`, with the outbound request modelled by the
`net` oracle.  The second component records whether the network was
contacted.  `if not ANTHROPIC_API_KEY` uses Python truthiness, and the
missing-credential `HTTPException(500, ...)` is raised before the
`httpx.AsyncClient` block; a non-200 upstream status raises
`HTTPException(response.status_code, response.text)`. -/
def call_claude (api_key : Option String) (net : HttpResp) : CallResult × Bool :=
  if !pyTruthyOptStr api_key then
    (.http_error 500 "ANTHROPIC_API_KEY not configured", false)
  else if net.status_code ≠ 200 then
    (.http_error net.status_code net.text, true)
  else
    (.success net.content_text, true)

/-- Starlette's `HTTPException.__str__`, which is what `str(e)` produces in
the handlers' catch-all branches: `"{status_code}: {detail}"`. -/
def http_exc_str (status_code : Nat) (detail : String) : String :=
  toString status_code ++ ": " ++ detail

/-- The response-sanitization lines shared verbatim by `analyze_scenes` and
`suggest_improvements`:

    clean_result = result.strip()
    if clean_result.startswith("```"):
        clean_result = clean_result.split("\n", 1)[1]
        clean_result = clean_result.rsplit("```", 1)[0]

`none` models the `IndexError` raised by `[1]` when the fence-starting text
contains no newline. -/
def strip_fences (result : String) : Option String :=
  let clean := pyStrip result
  if pyStartsWith clean "```" then
    match splitOnceAfter clean.toList '\n' with
    | none => none
    | some rest => some (String.mk (rsplitBeforeLast rest "```".toList))
  else
    some clean

/-- Observable outcome of the `/api/scene-board/suggest` handler, paired
below with the HTTP status code FastAPI sends.  Returning a dict gives HTTP
200, so upstream failures surface only inside the envelope.  On the success
path `json.loads(clean)` runs; JSON parsing is not modelled, so that path
carries the sanitized text it would parse. -/
inductive SuggestResponse where
  | failure (error : String)
  | parsed_from (clean : String)
deriving DecidableEq, Repr

/-- `suggest_improvements` of `main.py` (the prompt built from the request
does not influence the modelled outcome; the external reply is the `net`
oracle).  Its single `except Exception` clause catches every exception —
including the `HTTPException` raised by `call_claude` — and converts it to a
`{"success": False, "error": str(e)}` envelope with HTTP status 200. -/
def suggest_improvements (api_key : Option String) (net : HttpResp) :
    Nat × SuggestResponse :=
  match (call_claude api_key net).1 with
  | .http_error s d => (200, .failure (http_exc_str s d))
  | .success result =>
    match strip_fences result with
    | none => (200, .failure "list index out of range")
    | some clean => (200, .parsed_from clean)

/-- Observable outcome of the `/api/scene-board/analyze` handler. -/
inductive AnalyzeResponse where
  | internal_server_error
  | failure (error : String)
  | parsed_from (clean : String)
deriving DecidableEq, Repr

/-- `analyze_scenes` of `main.py`.  `import json` happens inside the `try`
block *after* the `await call_claude(...)` line, so when `call_claude`
raises, evaluating the `except json.JSONDecodeError` clause reads the unbound
local `json` and raises `UnboundLocalError`; that error escapes the handler
and FastAPI answers 500 Internal Server Error.  A sanitization `IndexError`
happens after the import and lands in the catch-all envelope. -/
def analyze_scenes (api_key : Option String) (net : HttpResp) :
    Nat × AnalyzeResponse :=
  match (call_claude api_key net).1 with
  | .http_error _ _ => (500, .internal_server_error)
  | .success result =>
    match strip_fences result with
    | none => (200, .failure "list index out of range")
    | some clean => (200, .parsed_from clean)

end Screenplay

/-! ## Characterization definitions used by the theorems -/

namespace Screenplay

/-- Single-pass characterization of the five chained replacements of
`escape_xml`: the image of one original character. -/
def escape_char (c : Char) : List Char :=
  if c = '&' then "&amp;".toList
  else if c = '<' then "&lt;".toList
  else if c = '>' then "&gt;".toList
  else if c = '"' then "&quot;".toList
  else if c = '\'' then "&apos;".toList
  else [c]

/-- A line of the generated FDX document that opens a `<Paragraph>` block. -/
def isParagraphLine (line : String) : Bool :=
  pyStartsWith line "  <Paragraph"

/-- The voice table of `get_voice_for_element` when the gender rule does not
fire (the guard `if last_character and characters` is falsy). -/
def voice_no_gender (t : String) : VoiceParams :=
  if t = "SCENE_HEADING" then ⟨0.9, 0.8, "narrator", some 1000, none, none⟩
  else if t = "ACTION" then ⟨1.0, 1.0, "narrator", some 500, none, none⟩
  else if t = "CHARACTER" then ⟨1.0, 1.0, "narrator", none, none, some true⟩
  else if t = "DIALOGUE" then ⟨1.1, 1.0, "narrator", some 300, none, none⟩
  else if t = "PARENTHETICAL" then ⟨1.2, 1.1, "narrator", some 200, some 0.7, none⟩
  else if t = "TRANSITION" then ⟨0.8, 0.7, "narrator", some 1500, none, none⟩
  else ⟨1.0, 1.0, "narrator", none, none, none⟩

/-- The request of the claim-C1 example: the characters table left
unsupplied. -/
def c1_request : TTSRequestAdvanced :=
  ⟨"T", [⟨"CHARACTER", "SOPHIE (O.S.)"⟩, ⟨"DIALOGUE", "Hello"⟩], none⟩

/-- The same element list with a non-empty characters table supplied whose
single entry is unrelated to SOPHIE (so her gender comes from the name
heuristic). -/
def c1_request_with_table : TTSRequestAdvanced :=
  ⟨"T", [⟨"CHARACTER", "SOPHIE (O.S.)"⟩, ⟨"DIALOGUE", "Hello"⟩],
   some [⟨"MARIE", some "female", none, none⟩]⟩

/-- The same element list with a table that assigns SOPHIE an explicit
gender, which takes precedence over the name heuristic. -/
def c1_request_sophie_male : TTSRequestAdvanced :=
  ⟨"T", [⟨"CHARACTER", "SOPHIE (O.S.)"⟩, ⟨"DIALOGUE", "Hello"⟩],
   some [⟨"SOPHIE", some "male", none, none⟩]⟩

end Screenplay

/-! ## Helper lemmas -/

namespace Screenplay

theorem toList_mk (l : List Char) : (String.mk l).toList = l := rfl

theorem toList_append (a b : String) : (a ++ b).toList = a.toList ++ b.toList := rfl

/-- A left fold that only appends blocks to its accumulator is a `flatMap`. -/
theorem foldl_append_eq_flatMap {α β : Type} (f : α → List β) :
    ∀ (l : List α) (init : List β),
      l.foldl (fun acc x => acc ++ f x) init = init ++ l.flatMap f
  | [], init => by simp
  | x :: xs, init => by
    simp [List.foldl_cons, foldl_append_eq_flatMap f xs (init ++ f x),
      List.flatMap_cons, List.append_assoc]

theorem escape_char_chain (c : Char) :
    (((((if c = '&' then "&amp;".toList else [c]).flatMap
        (fun d => if d = '<' then "&lt;".toList else [d])).flatMap
        (fun d => if d = '>' then "&gt;".toList else [d])).flatMap
        (fun d => if d = '"' then "&quot;".toList else [d])).flatMap
        (fun d => if d = '\'' then "&apos;".toList else [d])) = escape_char c := by
  by_cases h1 : c = '&'
  · subst h1; decide
  by_cases h2 : c = '<'
  · subst h2; decide
  by_cases h3 : c = '>'
  · subst h3; decide
  by_cases h4 : c = '"'
  · subst h4; decide
  by_cases h5 : c = '\''
  · subst h5; decide
  simp [escape_char, h1, h2, h3, h4, h5]

theorem escape_chain (l : List Char) :
    ((((l.flatMap (fun c => if c = '&' then "&amp;".toList else [c])).flatMap
        (fun c => if c = '<' then "&lt;".toList else [c])).flatMap
        (fun c => if c = '>' then "&gt;".toList else [c])).flatMap
        (fun c => if c = '"' then "&quot;".toList else [c])).flatMap
        (fun c => if c = '\'' then "&apos;".toList else [c]) = l.flatMap escape_char := by
  induction l with
  | nil => rfl
  | cons c cs ih =>
    simp only [List.flatMap_cons, List.flatMap_append]
    rw [ih, escape_char_chain c]

/-- `escape_xml` is exactly the independent per-character escape: each
original character is translated once, so the ampersand introduced by a later
replacement is never re-escaped. -/
theorem escape_xml_eq_flatMap (t : String) :
    escape_xml t = String.mk (t.toList.flatMap escape_char) := by
  by_cases ht : t = ""
  · subst ht; rfl
  · show (if t = "" then "" else _) = _
    rw [if_neg ht]
    simp only [pyReplaceChar, toList_mk]
    rw [escape_chain t.toList]

theorem isParagraphLine_open (x : String) :
    isParagraphLine ("  <Paragraph Type=\"" ++ x ++ "\">") = true := by
  show ("  <Paragraph".toList.isPrefixOf _) = true
  rw [show ("  <Paragraph Type=\"" ++ x ++ "\">").toList
      = "  <Paragraph".toList ++ (" Type=\"".toList ++ (x ++ "\">").toList) from by
    simp [toList_append]]
  simp [List.isPrefixOf_iff_prefix]

theorem isParagraphLine_text (e : String) :
    isParagraphLine ("    <Text>" ++ e ++ "</Text>") = false := rfl

theorem countP_paragraph_block (el : ScriptElement) :
    (paragraph_block el).countP isParagraphLine = 1 := by
  simp [paragraph_block, List.countP_cons, isParagraphLine_open,
    isParagraphLine_text, show isParagraphLine "  </Paragraph>" = false from rfl]

theorem countP_flatMap_paragraph_block (l : List ScriptElement) :
    (l.flatMap paragraph_block).countP isParagraphLine = l.length := by
  induction l with
  | nil => rfl
  | cons el els ih =>
    simp [List.flatMap_cons, List.countP_append, countP_paragraph_block, ih,
      Nat.add_comm]

theorem pyReplaceChar_not_old (s : String) (rep : String)
    (hrep : ∀ c ∈ rep.toList, c ≠ ' ') :
    ∀ c ∈ (pyReplaceChar s ' ' rep).toList, c ≠ ' ' := by
  intro c hc
  simp only [pyReplaceChar, toList_mk, List.mem_flatMap] at hc
  obtain ⟨a, _, hm⟩ := hc
  by_cases ha : a = ' '
  · rw [if_pos ha] at hm
    exact hrep c hm
  · rw [if_neg ha] at hm
    simp at hm
    exact hm ▸ ha

end Screenplay

/-! ## Claim theorems -/

namespace Screenplay

/-- Claim C7 (confirmed).  XML escaping: the five replacements are applied
ampersand-first; the input consisting of the five special characters
`&<>"'` escapes to exactly `&amp;&lt;&gt;&quot;&apos;` with no
double-escaping of the ampersand; the empty string yields the empty string.
The third conjunct characterizes `escape_xml` as a single independent
per-character translation, which is precisely the absence of
double-escaping. -/
theorem claim_C7_escape_xml :
    escape_xml "&<>\"'" = "&amp;&lt;&gt;&quot;&apos;" ∧
    escape_xml "" = "" ∧
    ∀ t : String, escape_xml t = String.mk (t.toList.flatMap escape_char) :=
  ⟨by decide, rfl, escape_xml_eq_flatMap⟩

/-- Claim C3 (corrected), counterexample.  The JSON-envelope export endpoint
(`export_fdx_json`) does *not* replace spaces: for title `"My Play"` it
reports filename `"My Play.fdx"`, not `"My_Play.fdx"` as the claim states. -/
theorem claim_C3_counterexample :
    (export_fdx_json ⟨"My Play", []⟩).filename = "My Play.fdx" ∧
    (export_fdx_json ⟨"My Play", []⟩).filename ≠ "My_Play.fdx" := by
  constructor
  · rfl
  · decide

/-- Claim C3 (corrected), amended.  Only the attachment endpoint
(`export_fdx`) derives the filename by replacing every space in the title
with an underscore and appending `.fdx` (so its filename never contains a
space); the JSON-envelope endpoint (`export_fdx_json`) appends `.fdx` to the
title verbatim. -/
theorem claim_C3_amended :
    (export_fdx ⟨"My Play", []⟩).filename = "My_Play.fdx" ∧
    (∀ (title : String) (els : List ScriptElement),
      (export_fdx ⟨title, els⟩).filename = pyReplaceChar title ' ' "_" ++ ".fdx") ∧
    (∀ (title : String) (els : List ScriptElement),
      ∀ c ∈ (export_fdx ⟨title, els⟩).filename.toList, c ≠ ' ') ∧
    (∀ (title : String) (els : List ScriptElement),
      (export_fdx_json ⟨title, els⟩).filename = title ++ ".fdx") := by
  refine ⟨by decide, fun _ _ => rfl, ?_, fun _ _ => rfl⟩
  intro title els c hc
  rw [show (export_fdx ⟨title, els⟩).filename
      = pyReplaceChar title ' ' "_" ++ ".fdx" from rfl, toList_append] at hc
  rcases List.mem_append.mp hc with h | h
  · exact pyReplaceChar_not_old title "_" (by decide) c h
  · rw [show ".fdx".toList = ['.', 'f', 'd', 'x'] from by decide] at h
    simp only [List.mem_cons, List.not_mem_nil, or_false] at h
    rcases h with h | h | h | h <;> subst h <;> decide

/-- Claim C3 witness: the amended theorem applied at title `"My Play"`. -/
theorem claim_C3_amended_witness :
    (export_fdx ⟨"My Play", []⟩).filename = pyReplaceChar "My Play" ' ' "_" ++ ".fdx" ∧
    '_' ≠ ' ' :=
  ⟨claim_C3_amended.2.1 "My Play" [],
   claim_C3_amended.2.2.1 "My Play" [] '_' (by decide)⟩

/-- Claim C6 (confirmed).  `generate_fdx` emits the fixed header, then
exactly one three-line `<Paragraph Type="...">` block per input element in
input order (`flatMap`), then the fixed footer, all newline-joined; the
number of paragraph-opening lines equals the number of elements; the `Type`
attribute comes from the fixed six-entry mapping with `"Action"` for any
unrecognized type; and the empty element list produces `<Content>` directly
followed by `</Content>` with no paragraph entries. -/
theorem claim_C6_generate_fdx (title : String) (elements : List ScriptElement) :
    generate_fdx title elements =
      pyJoinNl (fdx_header ++ elements.flatMap paragraph_block ++ fdx_footer) ∧
    (fdx_header ++ elements.flatMap paragraph_block ++ fdx_footer).countP
      isParagraphLine = elements.length ∧
    (fdx_type_of "SCENE_HEADING" = "Scene Heading" ∧
     fdx_type_of "ACTION" = "Action" ∧
     fdx_type_of "CHARACTER" = "Character" ∧
     fdx_type_of "DIALOGUE" = "Dialogue" ∧
     fdx_type_of "PARENTHETICAL" = "Parenthetical" ∧
     fdx_type_of "TRANSITION" = "Transition") ∧
    (∀ t : String,
      t ∉ ["SCENE_HEADING", "ACTION", "CHARACTER", "DIALOGUE",
           "PARENTHETICAL", "TRANSITION"] →
      fdx_type_of t = "Action") ∧
    generate_fdx title [] =
      "<?xml version=\"1.0\" encoding=\"UTF-8\"?>\n<FinalDraft DocumentType=\"Script\" Template=\"No\" Version=\"3\">\n<Content>\n</Content>\n</FinalDraft>" := by
  refine ⟨?_, ?_, by decide, ?_, rfl⟩
  · show pyJoinNl (List.foldl _ fdx_header elements ++ fdx_footer) = _
    rw [foldl_append_eq_flatMap paragraph_block elements fdx_header]
  · rw [List.countP_append, List.countP_append,
      countP_flatMap_paragraph_block elements,
      show List.countP isParagraphLine fdx_header = 0 from by decide,
      show List.countP isParagraphLine fdx_footer = 0 from by decide]
    omega
  · intro t ht
    simp only [List.mem_cons, List.not_mem_nil, or_false, not_or] at ht
    obtain ⟨h1, h2, h3, h4, h5, h6⟩ := ht
    have b1 : (t == "SCENE_HEADING") = false := beq_eq_false_iff_ne.mpr h1
    have b2 : (t == "ACTION") = false := beq_eq_false_iff_ne.mpr h2
    have b3 : (t == "CHARACTER") = false := beq_eq_false_iff_ne.mpr h3
    have b4 : (t == "DIALOGUE") = false := beq_eq_false_iff_ne.mpr h4
    have b5 : (t == "PARENTHETICAL") = false := beq_eq_false_iff_ne.mpr h5
    have b6 : (t == "TRANSITION") = false := beq_eq_false_iff_ne.mpr h6
    simp [fdx_type_of, type_mapping, List.lookup, b1, b2, b3, b4, b5, b6]

/-- Claim C6 witness: the theorem applied at a concrete title, element list
and unrecognized element type. -/
theorem claim_C6_generate_fdx_witness :
    fdx_type_of "VOICE_OVER" = "Action" ∧
    generate_fdx "My Play" [] =
      "<?xml version=\"1.0\" encoding=\"UTF-8\"?>\n<FinalDraft DocumentType=\"Script\" Template=\"No\" Version=\"3\">\n<Content>\n</Content>\n</FinalDraft>" :=
  ⟨(claim_C6_generate_fdx "My Play" []).2.2.2.1 "VOICE_OVER" (by decide),
   (claim_C6_generate_fdx "My Play" []).2.2.2.2⟩

/-- Claim C2 (corrected), counterexample.  `guess_gender` is not total: on
the empty string (and on whitespace-only strings) `name.upper().split()[0]`
indexes an empty list and raises `IndexError` (modelled by `none`) instead of
returning `"neutral"`. -/
theorem claim_C2_counterexample :
    guess_gender "" = none ∧ guess_gender "   " = none ∧
    guess_gender "" ≠ some "neutral" := by
  refine ⟨by decide, by decide, by decide⟩

/-- Claim C2 (corrected), amended.  Whenever `guess_gender` returns, the
result is one of `"female"`, `"male"`, `"neutral"`; but on inputs whose
uppercased form has no whitespace-delimited token (empty or whitespace-only
strings) it raises `IndexError` (modelled `none`) instead of returning
`"neutral"`.  Inside the application the function is only reached through a
truthiness guard on a stripped character name, so the raising inputs never
occur there. -/
theorem claim_C2_amended :
    (∀ (name g : String), guess_gender name = some g →
      g = "female" ∨ g = "male" ∨ g = "neutral") ∧
    guess_gender "" = none ∧ guess_gender "   " = none := by
  refine ⟨?_, by decide, by decide⟩
  intro name g h
  rcases hs : pySplitWs (pyUpper name) with _ | ⟨t, ts⟩
  · simp [guess_gender, hs] at h
  · simp only [guess_gender, hs] at h
    split_ifs at h <;> simp only [Option.some.injEq] at h <;> subst h <;> simp

/-- Claim C2 witness: the amended theorem applied at the name `"SOPHIE"`. -/
theorem claim_C2_amended_witness :
    guess_gender "SOPHIE" = some "female" ∧
    ("female" = "female" ∨ "female" = "male" ∨ "female" = "neutral") :=
  ⟨by decide, claim_C2_amended.1 "SOPHIE" "female" (by decide)⟩

/-- Claim C9 (confirmed).  The hardcoded female-name and male-name sets are
disjoint, and consequently `guess_gender` gives the same classification when
the two set-membership checks are made in the opposite order: each first
token maps to exactly one of female/male/neutral. -/
theorem claim_C9_disjoint_names :
    FEMALE_NAMES.all (fun n => !(MALE_NAMES.contains n)) = true ∧
    ∀ name : String, guess_gender name = guess_gender_males_first name := by
  refine ⟨by decide, ?_⟩
  intro name
  rcases hs : pySplitWs (pyUpper name) with _ | ⟨t, ts⟩
  · simp [guess_gender, guess_gender_males_first, hs]
  · simp only [guess_gender, guess_gender_males_first, hs, List.contains,
      List.elem_eq_mem, decide_eq_true_eq]
    by_cases hF : t ∈ FEMALE_NAMES
    · have hM : t ∉ MALE_NAMES := by
        have hall := List.all_eq_true.mp
          (by decide : FEMALE_NAMES.all (fun n => !(MALE_NAMES.contains n)) = true)
          t hF
        simpa using hall
      simp [hF, hM]
    · by_cases hM : t ∈ MALE_NAMES <;> simp [hF, hM]

/-- Claim C1 (corrected), counterexample.  With the characters table left
unsupplied, `prepare_tts` passes an *empty* dict to
`get_voice_for_element`, and the Python guard `if last_character and
characters:` is falsy for an empty dict, so the gender rule never fires: the
second element's voice is `narrator` with pitch 1.0, not `female` with
pitch 1.3. -/
theorem claim_C1_counterexample :
    ((prepare_tts c1_request).elems[1]?).map (fun e => e.voice.voice_type) =
      some "narrator" ∧
    some "narrator" ≠ some "female" ∧
    ((prepare_tts c1_request).elems[1]?).map (fun e => e.voice.pitch) =
      some (1.0 : Rat) ∧
    (1.0 : Rat) ≠ 1.3 :=
  ⟨rfl, by decide, rfl, by norm_num⟩

/-- Claim C1 (corrected), amended.  On the element list `[CHARACTER "SOPHIE
(O.S.)", DIALOGUE "Hello"]` with the characters table left unsupplied, the
second output element has voice `rate 1.1, pitch 1.0, voiceType "narrator",
pauseAfterMs 300` and character `"SOPHIE"` — not the claimed `female`/1.3,
because the handler passes an empty, Python-falsy dict and the gender rule
is skipped.  For illustration the theorem also evaluates two supplied
tables: with a non-empty table whose entries give SOPHIE no explicit gender,
the name heuristic yields the claimed `voiceType "female", pitch 1.3`; an
explicit `gender` entry for SOPHIE takes precedence instead (`"male"` gives
`voiceType "male", pitch 0.8`). -/
theorem claim_C1_amended :
    prepare_tts c1_request =
      .ok "T"
        [⟨"CHARACTER", "SOPHIE (O.S.)", ⟨1.0, 1.0, "narrator", none, none, some true⟩, none⟩,
         ⟨"DIALOGUE", "Hello", ⟨1.1, 1.0, "narrator", some 300, none, none⟩, some "SOPHIE"⟩]
        2 ∧
    prepare_tts c1_request_with_table =
      .ok "T"
        [⟨"CHARACTER", "SOPHIE (O.S.)", ⟨1.0, 1.0, "narrator", none, none, some true⟩, none⟩,
         ⟨"DIALOGUE", "Hello", ⟨1.1, 1.3, "female", some 300, none, none⟩, some "SOPHIE"⟩]
        2 ∧
    prepare_tts c1_request_sophie_male =
      .ok "T"
        [⟨"CHARACTER", "SOPHIE (O.S.)", ⟨1.0, 1.0, "narrator", none, none, some true⟩, none⟩,
         ⟨"DIALOGUE", "Hello", ⟨1.1, 0.8, "male", some 300, none, none⟩, some "SOPHIE"⟩]
        2 :=
  ⟨rfl, rfl, rfl⟩

end Screenplay

/-! ## Claim C10: empty `last_character` carry-over -/

namespace Screenplay

theorem ws_toUpper (c : Char) (h : c.isWhitespace = true) : Char.toUpper c = c := by
  simp only [Char.isWhitespace, Bool.or_eq_true, decide_eq_true_eq] at h
  rcases h with ((h | h) | h) | h <;> subst h <;> decide

theorem ws_bne_paren (c : Char) (h : c.isWhitespace = true) : (c != '(') = true := by
  simp only [Char.isWhitespace, Bool.or_eq_true, decide_eq_true_eq] at h
  rcases h with ((h | h) | h) | h <;> subst h <;> decide

/-- A CHARACTER cue whose text starts with `(` or is only whitespace strips
down to the empty string, not to `None`. -/
theorem extract_character_eq_empty (ctext : String)
    (hc : pyStartsWith ctext "(" = true ∨ ctext.toList.all Char.isWhitespace = true) :
    extract_character ctext = "" := by
  rcases hc with h | h
  · unfold pyStartsWith at h
    rw [show "(".toList = ['('] from rfl] at h
    rcases hl : ctext.toList with _ | ⟨c, cs⟩
    · rw [hl] at h
      simp [List.isPrefixOf] at h
    · rw [hl] at h
      simp only [List.isPrefixOf, List.isPrefixOf_nil_left, Bool.and_true,
        beq_iff_eq] at h
      subst h
      unfold extract_character pyUpper
      rw [toList_mk, hl]
      rw [show (('(' :: cs).map Char.toUpper).takeWhile (fun c => c != '(') = []
          from by simp [List.map_cons, show Char.toUpper '(' = '(' from rfl]]
      rfl
  · have hws : ∀ c ∈ ctext.toList, c.isWhitespace = true := List.all_eq_true.mp h
    unfold extract_character pyUpper
    rw [toList_mk]
    rw [show ctext.toList.map Char.toUpper = ctext.toList from by
      conv_rhs => rw [← List.map_id ctext.toList]
      exact List.map_congr_left fun a ha => ws_toUpper a (hws a ha)]
    rw [List.takeWhile_eq_self_iff.mpr fun c hcl => ws_bne_paren c (hws c hcl)]
    unfold pyStrip pyStripList
    simp only [toList_mk]
    rw [List.dropWhile_eq_nil_iff.mpr fun c hcl => hws c hcl]
    rfl

/-- With `last_character` equal to the *empty string* (Python-falsy), the
DIALOGUE gender rule is skipped no matter what characters table is
supplied. -/
theorem get_voice_empty_last (el : ScriptElement)
    (chars : List (String × CharInfo)) :
    get_voice_for_element el chars (some "") = some (voice_no_gender el.type) := by
  simp only [get_voice_for_element, voice_no_gender]
  split_ifs <;> first | rfl | simp_all [pyTruthyOptStr]

theorem tts_step_no_character (chars : List (String × CharInfo))
    (acc : List TtsElement) (el : ScriptElement)
    (hel : el.type ≠ "CHARACTER") :
    tts_step chars (acc, some "") el =
      some (acc ++ [⟨el.type, el.text, voice_no_gender el.type,
        if el.type = "DIALOGUE" ∨ el.type = "PARENTHETICAL" then some "" else none⟩],
        some "") := by
  simp [tts_step, get_voice_empty_last, hel]

theorem foldlM_no_character (chars : List (String × CharInfo))
    (rest : List ScriptElement) :
    ∀ (acc : List TtsElement), (∀ el ∈ rest, el.type ≠ "CHARACTER") →
      List.foldlM (tts_step chars) (acc, some "") rest =
        some (acc ++ rest.map (fun el =>
          ⟨el.type, el.text, voice_no_gender el.type,
           if el.type = "DIALOGUE" ∨ el.type = "PARENTHETICAL" then some ""
           else none⟩), some "") := by
  induction rest with
  | nil => intro acc _; simp
  | cons el rest ih =>
    intro acc h
    have hel : el.type ≠ "CHARACTER" := h el (List.mem_cons_self el rest)
    have hrest : ∀ e ∈ rest, e.type ≠ "CHARACTER" :=
      fun e he => h e (List.mem_cons_of_mem el he)
    rw [List.foldlM_cons, tts_step_no_character chars acc el hel]
    show List.foldlM (tts_step chars) _ rest = _
    rw [ih _ hrest]
    simp

/-- Claim C10 (confirmed).  A CHARACTER element whose text starts with `(`
or is only whitespace sets `last_character` to the empty string (not
`None`); every following DIALOGUE or PARENTHETICAL element (with no further
CHARACTER in between) then carries `some ""` — not `none` — in its output
`character` field, and the DIALOGUE gender rule is skipped (pitch 1.0,
narrator voice, rate 1.1, pause 300 stand) even when a characters table was
supplied. -/
theorem claim_C10_empty_character (title ctext : String)
    (rest : List ScriptElement) (chars : Option (List Character))
    (hc : pyStartsWith ctext "(" = true ∨ ctext.toList.all Char.isWhitespace = true)
    (hrest : ∀ el ∈ rest, el.type ≠ "CHARACTER") :
    extract_character ctext = "" ∧
    prepare_tts ⟨title, ⟨"CHARACTER", ctext⟩ :: rest, chars⟩ =
      .ok title
        (⟨"CHARACTER", ctext, ⟨1.0, 1.0, "narrator", none, none, some true⟩, none⟩ ::
          rest.map (fun el =>
            ⟨el.type, el.text, voice_no_gender el.type,
             if el.type = "DIALOGUE" ∨ el.type = "PARENTHETICAL" then some ""
             else none⟩))
        (rest.length + 1) ∧
    voice_no_gender "DIALOGUE" = ⟨1.1, 1.0, "narrator", some 300, none, none⟩ ∧
    voice_no_gender "PARENTHETICAL" = ⟨1.2, 1.1, "narrator", some 200, some 0.7, none⟩ := by
  have hex := extract_character_eq_empty ctext hc
  refine ⟨hex, ?_, rfl, rfl⟩
  unfold prepare_tts
  dsimp only
  rw [List.foldlM_cons]
  rw [show tts_step (build_characters chars) ([], none) ⟨"CHARACTER", ctext⟩ =
      some ([⟨"CHARACTER", ctext, ⟨1.0, 1.0, "narrator", none, none, some true⟩, none⟩],
        some "") from by
    simp only [tts_step]
    rw [show get_voice_for_element ⟨"CHARACTER", ctext⟩ (build_characters chars) none =
        some ⟨1.0, 1.0, "narrator", none, none, some true⟩ from rfl]
    simp [hex]]
  rw [show (some ([⟨"CHARACTER", ctext,
        (⟨1.0, 1.0, "narrator", none, none, some true⟩ : VoiceParams), none⟩],
        some "") >>= fun b => List.foldlM (tts_step (build_characters chars)) b rest)
      = List.foldlM (tts_step (build_characters chars))
          ([⟨"CHARACTER", ctext, ⟨1.0, 1.0, "narrator", none, none, some true⟩, none⟩],
            some "") rest from rfl]
  rw [foldlM_no_character (build_characters chars) rest _ hrest]
  simp

/-- Claim C10 witness: the theorem applied to the CHARACTER cue `"(V.O.)"`
followed by a DIALOGUE and a PARENTHETICAL, with a characters table
supplied. -/
theorem claim_C10_empty_character_witness :
    prepare_tts ⟨"T", [⟨"CHARACTER", "(V.O.)"⟩, ⟨"DIALOGUE", "Hi"⟩,
        ⟨"PARENTHETICAL", "(beat)"⟩], some [⟨"MARIE", some "female", none, none⟩]⟩ =
      .ok "T"
        [⟨"CHARACTER", "(V.O.)", ⟨1.0, 1.0, "narrator", none, none, some true⟩, none⟩,
         ⟨"DIALOGUE", "Hi", voice_no_gender "DIALOGUE", some ""⟩,
         ⟨"PARENTHETICAL", "(beat)", voice_no_gender "PARENTHETICAL", some ""⟩]
        3 :=
  (claim_C10_empty_character "T" "(V.O.)"
    [⟨"DIALOGUE", "Hi"⟩, ⟨"PARENTHETICAL", "(beat)"⟩]
    (some [⟨"MARIE", some "female", none, none⟩])
    (Or.inl (by decide)) (by decide)).2.1

end Screenplay

/-! ## Claims C4, C5, C8: the Scene Board AI proxy -/

namespace Screenplay

/-- Claim C5 (confirmed).  When the external API credential is absent
(Python-falsy: unset or empty), `call_claude` raises
`HTTPException(500, "ANTHROPIC_API_KEY not configured")` before any network
request is attempted (second component `false` = network untouched,
whatever the oracle `net` would have answered), and both AI endpoints fail:
the suggest handler's catch-all reports the 500 configuration error inside
its JSON envelope, and the analyze handler fails with an HTTP 500 (its
`except json.JSONDecodeError` clause reads the not-yet-imported local
`json`, so the error escapes as `UnboundLocalError`). -/
theorem claim_C5_missing_key (api_key : Option String) (net : HttpResp)
    (h : pyTruthyOptStr api_key = false) :
    call_claude api_key net =
      (.http_error 500 "ANTHROPIC_API_KEY not configured", false) ∧
    analyze_scenes api_key net = (500, .internal_server_error) ∧
    suggest_improvements api_key net =
      (200, .failure "500: ANTHROPIC_API_KEY not configured") := by
  have hc : call_claude api_key net =
      (.http_error 500 "ANTHROPIC_API_KEY not configured", false) := by
    simp [call_claude, h]
  refine ⟨hc, by simp [analyze_scenes, hc], ?_⟩
  simp only [suggest_improvements, hc]
  rfl

/-- Claim C5 witness: the theorem applied to an unset key and an oracle that
would have answered 200. -/
theorem claim_C5_missing_key_witness :
    call_claude none ⟨200, "ok", "body"⟩ =
      (.http_error 500 "ANTHROPIC_API_KEY not configured", false) ∧
    analyze_scenes none ⟨200, "ok", "body"⟩ = (500, .internal_server_error) ∧
    suggest_improvements none ⟨200, "ok", "body"⟩ =
      (200, .failure "500: ANTHROPIC_API_KEY not configured") :=
  claim_C5_missing_key none ⟨200, "ok", "body"⟩ (by decide)

/-- Claim C4 (corrected), counterexample.  A non-2xx upstream status is
*not* surfaced to the caller with the same status code: for an upstream 418
the suggest endpoint answers HTTP 200 with a `success: false` envelope whose
error string merely embeds the upstream status and body. -/
theorem claim_C4_counterexample :
    suggest_improvements (some "key") ⟨418, "upstream error body", ""⟩ =
      (200, .failure "418: upstream error body") ∧
    (suggest_improvements (some "key") ⟨418, "upstream error body", ""⟩).1 ≠ 418 := by
  refine ⟨by decide, by decide⟩

/-- Claim C4 (corrected), amended.  `call_claude` itself raises an
`HTTPException` carrying the upstream status code and response body, but
neither handler passes it through to the caller: the suggest handler's
catch-all converts it into an HTTP 200 `{"success": false, "error":
"<status>: <body>"}` envelope, and the analyze handler faults while
evaluating its `except json.JSONDecodeError` clause (local `json` unbound),
so the caller receives a generic HTTP 500 there. -/
theorem claim_C4_amended (api_key : String) (net : HttpResp)
    (hk : api_key ≠ "") (hs : net.status_code ≠ 200) :
    call_claude (some api_key) net = (.http_error net.status_code net.text, true) ∧
    suggest_improvements (some api_key) net =
      (200, .failure (http_exc_str net.status_code net.text)) ∧
    analyze_scenes (some api_key) net = (500, .internal_server_error) := by
  have ht : pyTruthyOptStr (some api_key) = true := by
    simp [pyTruthyOptStr, hk]
  have hc : call_claude (some api_key) net =
      (.http_error net.status_code net.text, true) := by
    simp [call_claude, ht, hs]
  exact ⟨hc, by simp [suggest_improvements, hc], by simp [analyze_scenes, hc]⟩

/-- Claim C4 witness: the amended theorem applied at a concrete key and a
503 upstream reply. -/
theorem claim_C4_amended_witness :
    call_claude (some "key") ⟨503, "overloaded", ""⟩ =
      (.http_error 503 "overloaded", true) ∧
    suggest_improvements (some "key") ⟨503, "overloaded", ""⟩ =
      (200, .failure (http_exc_str 503 "overloaded")) ∧
    analyze_scenes (some "key") ⟨503, "overloaded", ""⟩ =
      (500, .internal_server_error) :=
  claim_C4_amended "key" ⟨503, "overloaded", ""⟩ (by decide) (by decide)

/-- Claim C8 (corrected), counterexample.  The sanitization is not total on
fence-starting responses: a trimmed response that starts with the fence
marker but contains no newline (here the bare marker itself) makes
`clean_result.split("\n", 1)[1]` raise `IndexError` instead of removing the
fence, so no sanitized text is produced. -/
theorem claim_C8_counterexample :
    strip_fences "```" = none ∧ ∀ out : String, strip_fences "```" ≠ some out := by
  refine ⟨by decide, ?_⟩
  intro out h
  rw [show strip_fences "```" = none from by decide] at h
  cases h

/-- Claim C8 (corrected), amended.  The sanitization trims the response
text; a trimmed response not starting with a fence marker is returned
unchanged; a fence-starting response containing a newline has the leading
fence line and the trailing fence marker removed (`"```json\n[1, 2]\n```"`
recovers the inner JSON text `"[1, 2]\n"`, likewise without a language tag);
but a fence-starting response with no newline raises `IndexError`, which the
handlers report through their generic error envelope. -/
theorem claim_C8_amended :
    strip_fences "```json\n[1, 2]\n```" = some "[1, 2]\n" ∧
    strip_fences "```\n[1, 2]\n```" = some "[1, 2]\n" ∧
    (∀ s : String, pyStartsWith (pyStrip s) "```" = false →
      strip_fences s = some (pyStrip s)) ∧
    strip_fences "```" = none := by
  refine ⟨by decide, by decide, ?_, by decide⟩
  intro s h
  simp [strip_fences, h]

/-- Claim C8 witness: the amended theorem's unchanged-text conjunct applied
at a padded fence-free response. -/
theorem claim_C8_amended_witness :
    strip_fences "  [1, 2] " = some (pyStrip "  [1, 2] ") ∧
    pyStrip "  [1, 2] " = "[1, 2]" :=
  ⟨claim_C8_amended.2.2.1 "  [1, 2] " (by decide), by decide⟩

end Screenplay

